import Mathlib

/-!
# Lab Record Entry Management System — verification model

A shallow embedding of `app.py` from the `lab_record_system` repository.
The persistent store (two SQLite tables, `students` and `entries`) is
modelled as lists of records plus the autoincrement counters; each Flask
route that touches the store becomes a pure function from the database
state (and the wall clock, passed explicitly) to a result and the new
state.  SQL queries are translated operation by operation:

* `SELECT ... WHERE ... fetchone()` becomes `List.find?` (SQLite scans in
  rowid order, and rows are stored here in ascending id order);
* the `JOIN students` in the workstation-occupancy query becomes a
  `find?` into the students table inside a `filterMap`;
* `UPDATE entries SET time_out = ? WHERE id = ?` becomes a `List.map`
  guarded on the id;
* `ORDER BY e.id DESC` becomes `List.insertionSort` with the
  larger-id-first relation, `LIMIT n` becomes `List.take n`.

Flash messages that the claims talk about (who occupies a workstation,
which time was recorded) are reproduced verbatim from the code.
-/

/-- A row of the `students` table. -/
structure Student where
  id : Nat
  name : String
  reg_no : String
  dept : String
deriving DecidableEq, Repr

/-- A row of the `entries` table.  `time_out = none` is SQL `NULL`. -/
structure Entry where
  id : Nat
  student_id : Nat
  lab_name : String
  system_no : String
  time_in : String
  time_out : Option String
  date : String
deriving DecidableEq, Repr

/-- The database: the two tables plus the `AUTOINCREMENT` counters.
Rows are kept in ascending id order (SQLite rowid order). -/
structure DB where
  students : List Student
  entries : List Entry
  nextStudentId : Nat
  nextEntryId : Nat
deriving DecidableEq, Repr

/-- The freshly initialised database (`init_db` creates empty tables;
SQLite autoincrement starts at 1). -/
def DB.empty : DB := { students := [], entries := [], nextStudentId := 1, nextEntryId := 1 }

/-- Python `str.strip()`: drop leading and trailing whitespace
(written over the character list so that proofs can evaluate it). -/
def pyStrip (s : String) : String :=
  ⟨((s.data.dropWhile Char.isWhitespace).reverse.dropWhile Char.isWhitespace).reverse⟩

/-- Python `str.upper()` (on the ASCII range the routes use). -/
def pyUpper (s : String) : String := ⟨s.data.map Char.toUpper⟩

/-- `reg_no = request.form.get("reg_no", "").strip().upper()`. -/
def normReg (s : String) : String := pyUpper (pyStrip s)

/-- `SELECT * FROM students WHERE reg_no = ?` (fetchone). -/
def findStudentByReg (db : DB) (regNo : String) : Option Student :=
  db.students.find? (fun s => s.reg_no == regNo)

/-- `SELECT name FROM students WHERE id = ?` (fetchone), used by the
delete route and by the `JOIN students s ON e.student_id = s.id`. -/
def findStudentById (db : DB) (sid : Nat) : Option Student :=
  db.students.find? (fun s => s.id == sid)

/-- `SELECT e.id, s.name FROM entries e JOIN students s ON
e.student_id = s.id WHERE e.system_no = ? AND e.date = ? AND
e.time_out IS NULL` (fetchone): the first entry open today on this
workstation that has an owning student, paired with that student. -/
def findSysBusy (db : DB) (sysNo today : String) : Option (Entry × Student) :=
  (db.entries.filterMap (fun e =>
    if e.system_no == sysNo && e.date == today && e.time_out.isNone then
      (findStudentById db e.student_id).map (fun s => (e, s))
    else none)).head?

/-- `SELECT * FROM entries WHERE student_id = ? AND date = ? AND
time_out IS NULL` (fetchone). -/
def findOpenEntry (db : DB) (sid : Nat) (today : String) : Option Entry :=
  db.entries.find? (fun e => e.student_id == sid && e.date == today && e.time_out.isNone)

/-- Flash text of a successful check-in. -/
def welcomeMsg (name sysNo now : String) : String :=
  "✅ Welcome, " ++ name ++ "! Assigned to System " ++ sysNo ++ ". Time In: " ++ now ++ "."

/-- Flash text when the requested workstation is already occupied. -/
def occupiedMsg (sysNo occupantName : String) : String :=
  "⚠️ System " ++ sysNo ++ " is already occupied by " ++ occupantName
    ++ ". Please choose another system."

/-- Flash text when the student is already inside the lab. -/
def insideMsg (name sysNo : String) : String :=
  "⚠️ " ++ name ++ " is already inside the lab on System " ++ sysNo ++ "!"

/-- Flash text of a successful check-out: it names the student and the
recorded time only. -/
def goodbyeMsg (name now : String) : String :=
  "👋 Goodbye, " ++ name ++ "! Time Out recorded at " ++ now ++ "."

/-- Flash text when check-out finds no open entry today. -/
def noOpenMsg (name : String) : String :=
  "No open entry found for " ++ name ++ " today. Please check in first."

/-- Outcome of `POST /entry` (`student_entry`).  Constructors that the
spec claims talk about through their flash message carry that message. -/
inductive CheckInResult where
  | missingRegNo
  | missingSystemNo
  | regNotFound (regNo : String)
  | systemOccupied (msg : String)
  | alreadyInside (msg : String)
  | success (msg : String)
deriving DecidableEq, Repr

/-- `student_entry` (app.py, `POST /entry`): trims and uppercases the
register number, trims the system number, validates both non-empty,
looks up the student, checks the workstation-occupied conflict, then
the already-inside conflict, and otherwise inserts a fresh entry with
`lab_name = "Computer Lab"`, `time_in = now`, `time_out = NULL`,
`date = today`.  `today` and `now` stand for `date.today().isoformat()`
and `datetime.now().strftime("%H:%M:%S")`. -/
def checkIn (db : DB) (regNoRaw sysNoRaw today now : String) : CheckInResult × DB :=
  let reg_no := normReg regNoRaw
  let system_no := pyStrip sysNoRaw
  if reg_no == "" then (.missingRegNo, db)
  else if system_no == "" then (.missingSystemNo, db)
  else
    match findStudentByReg db reg_no with
    | none => (.regNotFound reg_no, db)
    | some student =>
      match findSysBusy db system_no today with
      | some busy => (.systemOccupied (occupiedMsg system_no busy.2.name), db)
      | none =>
        match findOpenEntry db student.id today with
        | some oe => (.alreadyInside (insideMsg student.name oe.system_no), db)
        | none =>
          let e : Entry :=
            { id := db.nextEntryId, student_id := student.id, lab_name := "Computer Lab",
              system_no := system_no, time_in := now, time_out := none, date := today }
          (.success (welcomeMsg student.name system_no now),
           { db with entries := db.entries ++ [e], nextEntryId := db.nextEntryId + 1 })

/-- `UPDATE entries SET time_out = ? WHERE id = ?` applied to one row:
set `time_out` when the id matches, leave the row alone otherwise. -/
def closeIfId (oid : Nat) (now : String) (e : Entry) : Entry :=
  if e.id == oid then { e with time_out := some now } else e

/-- Outcome of `POST /exit` (`student_exit`). -/
inductive CheckOutResult where
  | missingRegNo
  | regNotFound (regNo : String)
  | noOpenEntry (msg : String)
  | success (msg : String)
deriving DecidableEq, Repr

/-- `student_exit` (app.py, `POST /exit`): finds the open entry for the
student today and sets its `time_out`; the success flash reports the
student name and the recorded time. -/
def checkOut (db : DB) (regNoRaw today now : String) : CheckOutResult × DB :=
  let reg_no := normReg regNoRaw
  if reg_no == "" then (.missingRegNo, db)
  else
    match findStudentByReg db reg_no with
    | none => (.regNotFound reg_no, db)
    | some student =>
      match findOpenEntry db student.id today with
      | none => (.noOpenEntry (noOpenMsg student.name), db)
      | some oe =>
        (.success (goodbyeMsg student.name now),
         { db with entries := db.entries.map (closeIfId oe.id now) })

/-- Outcome of `POST /admin/students/add` (`admin_add_student`). -/
inductive AddStudentResult where
  | missingFields
  | duplicateKey (regNo : String)
  | added (name : String)
deriving DecidableEq, Repr

/-- `admin_add_student`: trims all three fields, uppercases the register
number, requires all non-empty, and inserts; the SQLite
`reg_no UNIQUE` constraint (binary collation, i.e. exact string
equality) turns a duplicate into an `IntegrityError`, caught and
reported without inserting. -/
def addStudent (db : DB) (nameRaw regNoRaw deptRaw : String) : AddStudentResult × DB :=
  let name := pyStrip nameRaw
  let reg_no := normReg regNoRaw
  let dept := pyStrip deptRaw
  if name == "" || reg_no == "" || dept == "" then (.missingFields, db)
  else if db.students.any (fun s => s.reg_no == reg_no) then
    (.duplicateKey reg_no, db)
  else
    (.added name,
     { db with
        students := db.students ++
          [{ id := db.nextStudentId, name := name, reg_no := reg_no, dept := dept }],
        nextStudentId := db.nextStudentId + 1 })

/-- Outcome of `POST /admin/students/delete/<id>` (`admin_delete_student`). -/
inductive DeleteResult where
  | notFound
  | deleted (name : String)
deriving DecidableEq, Repr

/-- `admin_delete_student`: if the id matches a student, first
`DELETE FROM entries WHERE student_id = ?`, then
`DELETE FROM students WHERE id = ?`; otherwise flash "not found". -/
def deleteStudent (db : DB) (sid : Nat) : DeleteResult × DB :=
  match findStudentById db sid with
  | none => (.notFound, db)
  | some st =>
    (.deleted st.name,
     { db with
        entries := db.entries.filter (fun e => !(e.student_id == sid)),
        students := db.students.filter (fun s => !(s.id == sid)) })

/-- Larger-entry-id-first: the `ORDER BY e.id DESC` relation. -/
def entryGe (a b : Entry) : Prop := b.id ≤ a.id

instance : DecidableRel entryGe := fun a b => inferInstanceAs (Decidable (b.id ≤ a.id))

instance : IsTotal Entry entryGe := ⟨fun a b => Nat.le_total b.id a.id⟩

instance : IsTrans Entry entryGe := ⟨fun _ _ _ h1 h2 => Nat.le_trans h2 h1⟩

/-- A row of the admin listing: the `SELECT e.id, s.name, s.reg_no,
s.dept, e.lab_name, e.system_no, e.time_in, e.time_out, e.date` join. -/
structure Row where
  id : Nat
  name : String
  reg_no : String
  dept : String
  lab_name : String
  system_no : String
  time_in : String
  time_out : Option String
  date : String
deriving DecidableEq, Repr

/-- `JOIN students s ON e.student_id = s.id` for one entry: drops the
entry when no student matches. -/
def joinRow (db : DB) (e : Entry) : Option Row :=
  (findStudentById db e.student_id).map (fun s =>
    { id := e.id, name := s.name, reg_no := s.reg_no, dept := s.dept,
      lab_name := e.lab_name, system_no := e.system_no, time_in := e.time_in,
      time_out := e.time_out, date := e.date })

/-- `admin_entries` (`GET /admin/entries`): with a (non-empty) date
filter, all joined rows of that date ordered newest-id-first; without
one, the most recent 200 joined rows. -/
def listEntries (db : DB) (filter_date : String) : List Row :=
  if filter_date == "" then
    ((db.entries.insertionSort entryGe).filterMap (joinRow db)).take 200
  else
    (((db.entries.filter (fun e => e.date == filter_date)).insertionSort
        entryGe).filterMap (joinRow db))

/-- The fixed CSV header row written by `admin_export`. -/
def csvHeader : List String :=
  ["Name", "Reg No", "Department", "Lab", "System No", "Time In", "Time Out", "Date"]

/-- One CSV data line: `csv.writer` renders a SQL `NULL` (Python
`None`) as the empty field. -/
def rowToCsv (r : Row) : List String :=
  [r.name, r.reg_no, r.dept, r.lab_name, r.system_no, r.time_in, r.time_out.getD "", r.date]

/-- `admin_export` (`GET /admin/export`): the same selection and
ordering as the listing but with no `LIMIT`, preceded by the header. -/
def exportEntries (db : DB) (filter_date : String) : List (List String) :=
  let rows :=
    if filter_date == "" then
      (db.entries.insertionSort entryGe).filterMap (joinRow db)
    else
      ((db.entries.filter (fun e => e.date == filter_date)).insertionSort
        entryGe).filterMap (joinRow db)
  csvHeader :: rows.map rowToCsv

/-- Larger-row-id-first: newest-id-first order on listed rows. -/
def rowGe (a b : Row) : Prop := b.id ≤ a.id

/-- One user-visible operation on the store, with the wall clock an
explicit argument. -/
inductive Op where
  | add (name regNo dept : String)
  | del (sid : Nat)
  | cin (regNo sysNo today now : String)
  | cout (regNo today now : String)
deriving DecidableEq, Repr

/-- The state transition of one operation (the route's effect on the
database, discarding the flash message). -/
def applyOp (db : DB) : Op → DB
  | .add n r d => (addStudent db n r d).2
  | .del i => (deleteStudent db i).2
  | .cin r s t n => (checkIn db r s t n).2
  | .cout r t n => (checkOut db r t n).2

/-- Run a sequence of operations from a starting state. -/
def runOps (db : DB) (ops : List Op) : DB := ops.foldl applyOp db

/-- A state is reachable when some operation sequence produces it from
the freshly initialised database. -/
def Reachable (db : DB) : Prop := ∃ ops : List Op, runOps DB.empty ops = db

/-- `isPre pat l`: the character list `l` starts with `pat`. -/
def isPre : List Char → List Char → Bool
  | [], _ => true
  | _ :: _, [] => false
  | a :: as, b :: bs => a == b && isPre as bs

/-- `subList pat l`: `pat` occurs contiguously somewhere in `l`. -/
def subList (pat : List Char) : List Char → Bool
  | [] => isPre pat []
  | c :: rest => isPre pat (c :: rest) || subList pat rest

/-- Substring test (used to state that a flash message names a value). -/
def containsStr (s pat : String) : Bool := subList pat.data s.data

/-- Referential integrity: every entry is owned by a registered student
(established by the application, not by the storage engine). -/
def RefInt (db : DB) : Prop :=
  ∀ e ∈ db.entries, ∃ s ∈ db.students, s.id = e.student_id

/-- Two entries do not violate the occupancy rules: if both are open
and dated the same day, they belong to different students and to
different workstations. -/
def NoOpenConflict (a b : Entry) : Prop :=
  a.time_out = none → b.time_out = none → a.date = b.date →
    a.student_id ≠ b.student_id ∧ a.system_no ≠ b.system_no

/-- The inductive invariant of the store: referential integrity plus
pairwise absence of occupancy conflicts. -/
def DBInv (db : DB) : Prop :=
  RefInt db ∧ db.entries.Pairwise NoOpenConflict

/-- A sample operation sequence: registrations, a rejected
double-booking, check-ins and check-outs, a cascade delete. -/
def demoOps : List Op :=
  [.add "Asha Rao" "cs101" "CSE",
   .add "Ben Lee" "cs102" "CSE",
   .cin "cs101" "PC-07" "2024-01-05" "08:00:00",
   .cin "cs102" "PC-07" "2024-01-05" "08:05:00",
   .cin "cs102" "PC-09" "2024-01-05" "08:10:00",
   .cout "cs101" "2024-01-05" "09:00:00",
   .cin "cs101" "PC-07" "2024-01-05" "09:30:00",
   .del 2]

/-- Concrete student used to instantiate the theorems. -/
def ashaStudent : Student := { id := 1, name := "Asha Rao", reg_no := "CS101", dept := "CSE" }

/-- Second concrete student. -/
def benStudent : Student := { id := 2, name := "Ben Lee", reg_no := "CS102", dept := "CSE" }

/-- An open entry by Ben on workstation PC-07. -/
def openBen : Entry :=
  { id := 1, student_id := 2, lab_name := "Computer Lab", system_no := "PC-07",
    time_in := "08:00:00", time_out := none, date := "2024-01-05" }

/-- An open entry by Asha on workstation PC-08. -/
def openAsha : Entry :=
  { id := 2, student_id := 1, lab_name := "Computer Lab", system_no := "PC-08",
    time_in := "08:05:00", time_out := none, date := "2024-01-05" }

/-- An already closed entry by Asha. -/
def closedAsha : Entry :=
  { id := 3, student_id := 1, lab_name := "Computer Lab", system_no := "PC-09",
    time_in := "07:00:00", time_out := some "07:30:00", date := "2024-01-05" }

/-- A state in which a check-in by Asha on PC-07 hits both conflicts at
once: PC-07 is occupied by Ben and Asha is already inside on PC-08. -/
def conflictDB : DB :=
  { students := [ashaStudent, benStudent], entries := [openBen, openAsha],
    nextStudentId := 3, nextEntryId := 3 }

/-- A state with one registered student and no entries. -/
def regOnlyDB : DB :=
  { students := [ashaStudent], entries := [], nextStudentId := 2, nextEntryId := 1 }

/-- An open entry by Asha on workstation PC-07 (id 1). -/
def openAsha7 : Entry :=
  { id := 1, student_id := 1, lab_name := "Computer Lab", system_no := "PC-07",
    time_in := "08:00:00", time_out := none, date := "2024-01-05" }

/-- A state with one registered student inside the lab on PC-07. -/
def openDB : DB :=
  { students := [ashaStudent], entries := [openAsha7],
    nextStudentId := 2, nextEntryId := 2 }

/-- A state with two students, one closed entry by Asha and one open
entry by Ben. -/
def mixedDB : DB :=
  { students := [ashaStudent, benStudent],
    entries := [openBen, closedAsha],
    nextStudentId := 3, nextEntryId := 4 }

/-! ## Helper lemmas about the query and update helpers -/

theorem closeIfId_student_id (oid : Nat) (now : String) (e : Entry) :
    (closeIfId oid now e).student_id = e.student_id := by
  unfold closeIfId; split <;> rfl

theorem closeIfId_id (oid : Nat) (now : String) (e : Entry) :
    (closeIfId oid now e).id = e.id := by
  unfold closeIfId; split <;> rfl

theorem closeIfId_date (oid : Nat) (now : String) (e : Entry) :
    (closeIfId oid now e).date = e.date := by
  unfold closeIfId; split <;> rfl

theorem closeIfId_system_no (oid : Nat) (now : String) (e : Entry) :
    (closeIfId oid now e).system_no = e.system_no := by
  unfold closeIfId; split <;> rfl

theorem closeIfId_open {oid : Nat} {now : String} {e : Entry}
    (h : (closeIfId oid now e).time_out = none) :
    e.time_out = none ∧ closeIfId oid now e = e := by
  by_cases hc : e.id = oid
  · exfalso; simp [closeIfId, hc] at h
  · have he : closeIfId oid now e = e := by simp [closeIfId, hc]
    rw [he] at h
    exact ⟨h, he⟩

theorem closeIfId_ne {oid : Nat} {now : String} {e : Entry} (h : e.id ≠ oid) :
    closeIfId oid now e = e := by
  simp [closeIfId, h]

theorem findStudentByReg_mem {db : DB} {st : Student} {regNo : String}
    (h : findStudentByReg db regNo = some st) :
    st ∈ db.students ∧ st.reg_no = regNo := by
  refine ⟨List.mem_of_find?_eq_some h, ?_⟩
  simpa using List.find?_some h

theorem findStudentById_mem {db : DB} {st : Student} {sid : Nat}
    (h : findStudentById db sid = some st) :
    st ∈ db.students ∧ st.id = sid := by
  refine ⟨List.mem_of_find?_eq_some h, ?_⟩
  simpa using List.find?_some h

theorem findStudentById_isSome {db : DB} {sid : Nat}
    (h : ∃ s ∈ db.students, s.id = sid) : (findStudentById db sid).isSome := by
  obtain ⟨s, hs, hid⟩ := h
  unfold findStudentById
  rw [List.find?_isSome]
  exact ⟨s, hs, by simp [hid]⟩

theorem findOpenEntry_none {db : DB} {sid : Nat} {today : String}
    (h : findOpenEntry db sid today = none) :
    ∀ e ∈ db.entries, e.student_id = sid → e.date = today → e.time_out ≠ none := by
  intro e he h1 h2 h3
  have hx := List.find?_eq_none.mp h e he
  simp [h1, h2, h3] at hx

theorem findOpenEntry_some {db : DB} {sid : Nat} {today : String} {oe : Entry}
    (h : findOpenEntry db sid today = some oe) :
    oe ∈ db.entries ∧ oe.student_id = sid ∧ oe.date = today ∧ oe.time_out = none := by
  have hm := List.mem_of_find?_eq_some h
  have hp := List.find?_some h
  simp only [Bool.and_eq_true, beq_iff_eq, Option.isNone_iff_eq_none] at hp
  exact ⟨hm, hp.1.1, hp.1.2, hp.2⟩

theorem findSysBusy_none {db : DB} {sysNo today : String} (hri : RefInt db)
    (h : findSysBusy db sysNo today = none) :
    ∀ e ∈ db.entries, e.system_no = sysNo → e.date = today → e.time_out ≠ none := by
  intro e he h1 h2 h3
  unfold findSysBusy at h
  rw [List.head?_eq_none_iff, List.filterMap_eq_nil_iff] at h
  have hx := h e he
  rw [if_pos (by simp [h1, h2, h3])] at hx
  rw [Option.map_eq_none'] at hx
  have hsome := findStudentById_isSome (hri e he)
  rw [hx] at hsome
  simp at hsome

/-! ## The inductive invariant is preserved by every operation -/

theorem dbInv_addStudent (db : DB) (n r d : String) (h : DBInv db) :
    DBInv (addStudent db n r d).2 := by
  simp only [addStudent]
  split
  · exact h
  split
  · exact h
  refine ⟨?_, h.2⟩
  intro e he
  obtain ⟨s, hs, hid⟩ := h.1 e he
  exact ⟨s, List.mem_append_left _ hs, hid⟩

theorem dbInv_deleteStudent (db : DB) (sid : Nat) (h : DBInv db) :
    DBInv (deleteStudent db sid).2 := by
  simp only [deleteStudent]
  split
  · exact h
  refine ⟨?_, h.2.sublist (List.filter_sublist _)⟩
  intro e he
  rw [List.mem_filter] at he
  obtain ⟨hee, hcond⟩ := he
  obtain ⟨s, hs, hid⟩ := h.1 e hee
  refine ⟨s, ?_, hid⟩
  rw [List.mem_filter]
  refine ⟨hs, ?_⟩
  simp only [Bool.not_eq_eq_eq_not, Bool.not_true, beq_eq_false_iff_ne, ne_eq] at hcond ⊢
  rw [hid]
  exact hcond

theorem dbInv_checkOut (db : DB) (r t n : String) (h : DBInv db) :
    DBInv (checkOut db r t n).2 := by
  simp only [checkOut]
  split
  · exact h
  split
  · exact h
  split
  · exact h
  refine ⟨?_, ?_⟩
  · intro e' he'
    rw [List.mem_map] at he'
    obtain ⟨e, he, rfl⟩ := he'
    obtain ⟨s, hs, hid⟩ := h.1 e he
    exact ⟨s, hs, by rw [hid, closeIfId_student_id]⟩
  · refine h.2.map _ ?_
    intro a b hab ha hb hdate
    obtain ⟨ha0, hae⟩ := closeIfId_open ha
    obtain ⟨hb0, hbe⟩ := closeIfId_open hb
    rw [hae, hbe]
    rw [hae, hbe] at hdate
    exact hab ha0 hb0 hdate

theorem dbInv_checkIn (db : DB) (r s t n : String) (h : DBInv db) :
    DBInv (checkIn db r s t n).2 := by
  simp only [checkIn]
  split
  · exact h
  split
  · exact h
  split
  · exact h
  rename_i student hst
  split
  · exact h
  rename_i hbusy
  split
  · exact h
  rename_i hopen
  refine ⟨?_, ?_⟩
  · intro e' he'
    rw [List.mem_append] at he'
    rcases he' with he' | he'
    · exact h.1 e' he'
    · rw [List.mem_singleton] at he'
      subst he'
      exact ⟨student, (findStudentByReg_mem hst).1, rfl⟩
  · rw [List.pairwise_append]
    refine ⟨h.2, List.pairwise_singleton _ _, ?_⟩
    intro a ha b hb
    rw [List.mem_singleton] at hb
    subst hb
    intro haopen _ hdate
    constructor
    · intro heq
      exact findOpenEntry_none hopen a ha heq hdate haopen
    · intro heq
      exact findSysBusy_none h.1 hbusy a ha heq hdate haopen

theorem dbInv_applyOp (db : DB) (op : Op) (h : DBInv db) : DBInv (applyOp db op) := by
  cases op with
  | add n r d => exact dbInv_addStudent db n r d h
  | del i => exact dbInv_deleteStudent db i h
  | cin r s t n => exact dbInv_checkIn db r s t n h
  | cout r t n => exact dbInv_checkOut db r t n h

theorem dbInv_empty : DBInv DB.empty :=
  ⟨fun e he => absurd he (List.not_mem_nil e), List.Pairwise.nil⟩

theorem dbInv_runOps (ops : List Op) : ∀ db : DB, DBInv db → DBInv (runOps db ops) := by
  induction ops with
  | nil => intro db h; exact h
  | cons op rest ih => intro db h; exact ih _ (dbInv_applyOp db op h)

theorem dbInv_reachable {db : DB} (h : Reachable db) : DBInv db := by
  obtain ⟨ops, hops⟩ := h
  rw [← hops]
  exact dbInv_runOps ops DB.empty dbInv_empty

/-! ## Claims -/

/-- C1: in every state reachable from the empty database by any
sequence of add-student, delete-student, check-in and check-out
operations, at most one entry per (student, date) pair has a null
time-out and at most one entry per (workstation, date) pair has a null
time-out: any two distinct entries that are both open on the same date
belong to different students and different workstations. -/
theorem C1_reachable_open_entry_unique (db : DB) (h : Reachable db) :
    db.entries.Pairwise NoOpenConflict :=
  (dbInv_reachable h).2

/-- Witness for C1 on a concrete eight-operation run. -/
theorem C1_reachable_open_entry_unique_witness :
    Reachable (runOps DB.empty demoOps)
    ∧ (runOps DB.empty demoOps).entries.Pairwise NoOpenConflict :=
  ⟨⟨demoOps, rfl⟩, C1_reachable_open_entry_unique _ ⟨demoOps, rfl⟩⟩

/-- C2: the workstation-conflict check of check-in runs before the
student-conflict check: when the requested workstation has an open
entry today (joined with its student) and the requesting student also
has an open entry today, check-in reports the occupied workstation
(naming the occupying student) and leaves the database unchanged; it
does not report "already checked in". -/
theorem C2_workstation_conflict_wins (db : DB) (regNoRaw sysNoRaw today now : String)
    (st : Student) (busy : Entry × Student) (oe : Entry)
    (hreg : normReg regNoRaw ≠ "")
    (hsys : pyStrip sysNoRaw ≠ "")
    (hst : findStudentByReg db (normReg regNoRaw) = some st)
    (hbusy : findSysBusy db (pyStrip sysNoRaw) today = some busy)
    (hoe : findOpenEntry db st.id today = some oe) :
    (checkIn db regNoRaw sysNoRaw today now).1
      = CheckInResult.systemOccupied (occupiedMsg (pyStrip sysNoRaw) busy.2.name)
    ∧ (checkIn db regNoRaw sysNoRaw today now).2 = db := by
  have hreg' : (normReg regNoRaw == "") = false := beq_eq_false_iff_ne.mpr hreg
  have hsys' : (pyStrip sysNoRaw == "") = false := beq_eq_false_iff_ne.mpr hsys
  simp only [checkIn, hreg', hsys', hst, hbusy, Bool.false_eq_true, if_false]
  simp

/-- Witness for C2: Ben occupies PC-07, Asha is open on PC-08, and
Asha's check-in on PC-07 yields the workstation message naming Ben. -/
theorem C2_workstation_conflict_wins_witness :
    findStudentByReg conflictDB (normReg "cs101") = some ashaStudent
    ∧ findSysBusy conflictDB (pyStrip "PC-07") "2024-01-05" = some (openBen, benStudent)
    ∧ findOpenEntry conflictDB ashaStudent.id "2024-01-05" = some openAsha
    ∧ containsStr (occupiedMsg (pyStrip "PC-07") benStudent.name) benStudent.name = true
    ∧ (checkIn conflictDB "cs101" "PC-07" "2024-01-05" "09:00:00").1
        = CheckInResult.systemOccupied (occupiedMsg (pyStrip "PC-07") benStudent.name)
    ∧ (checkIn conflictDB "cs101" "PC-07" "2024-01-05" "09:00:00").2 = conflictDB := by
  refine ⟨by decide, by decide, by decide, by decide, ?_, ?_⟩
  · exact (C2_workstation_conflict_wins conflictDB "cs101" "PC-07" "2024-01-05" "09:00:00"
      ashaStudent (openBen, benStudent) openAsha (by decide) (by decide) (by decide)
      (by decide) (by decide)).1
  · exact (C2_workstation_conflict_wins conflictDB "cs101" "PC-07" "2024-01-05" "09:00:00"
      ashaStudent (openBen, benStudent) openAsha (by decide) (by decide) (by decide)
      (by decide) (by decide)).2

/-- C3: when both inputs are non-empty after normalisation, the
register number matches a student, the workstation has no open entry
today, and the student has no open entry today, check-in succeeds with
the welcome message carrying the recorded time, appends exactly one new
entry (default lab name "Computer Lab", the given workstation, time-in
now, null time-out, date today), leaves the students table unchanged
and advances the entry counter by one. -/
theorem C3_checkin_success_creates_entry (db : DB) (regNoRaw sysNoRaw today now : String)
    (st : Student)
    (hreg : normReg regNoRaw ≠ "")
    (hsys : pyStrip sysNoRaw ≠ "")
    (hst : findStudentByReg db (normReg regNoRaw) = some st)
    (hbusy : findSysBusy db (pyStrip sysNoRaw) today = none)
    (hopen : findOpenEntry db st.id today = none) :
    (checkIn db regNoRaw sysNoRaw today now).1
      = CheckInResult.success (welcomeMsg st.name (pyStrip sysNoRaw) now)
    ∧ (checkIn db regNoRaw sysNoRaw today now).2.entries
        = db.entries ++ [⟨db.nextEntryId, st.id, "Computer Lab", pyStrip sysNoRaw, now, none, today⟩]
    ∧ (checkIn db regNoRaw sysNoRaw today now).2.students = db.students
    ∧ (checkIn db regNoRaw sysNoRaw today now).2.nextEntryId = db.nextEntryId + 1 := by
  have hreg' : (normReg regNoRaw == "") = false := beq_eq_false_iff_ne.mpr hreg
  have hsys' : (pyStrip sysNoRaw == "") = false := beq_eq_false_iff_ne.mpr hsys
  simp only [checkIn, hreg', hsys', hst, hbusy, hopen, Bool.false_eq_true, if_false]
  simp

/-- Witness for C3: Asha checks in on the free workstation PC-07 of a
state with no entries; the welcome message carries the recorded time
and the single created entry has the specified fields. -/
theorem C3_checkin_success_creates_entry_witness :
    findStudentByReg regOnlyDB (normReg " cs101 ") = some ashaStudent
    ∧ findSysBusy regOnlyDB (pyStrip "PC-07") "2024-01-05" = none
    ∧ findOpenEntry regOnlyDB ashaStudent.id "2024-01-05" = none
    ∧ containsStr (welcomeMsg ashaStudent.name (pyStrip "PC-07") "08:00:00") "08:00:00" = true
    ∧ (checkIn regOnlyDB " cs101 " "PC-07" "2024-01-05" "08:00:00").1
        = CheckInResult.success (welcomeMsg ashaStudent.name (pyStrip "PC-07") "08:00:00")
    ∧ (checkIn regOnlyDB " cs101 " "PC-07" "2024-01-05" "08:00:00").2.entries
        = regOnlyDB.entries
            ++ [⟨regOnlyDB.nextEntryId, ashaStudent.id, "Computer Lab", pyStrip "PC-07",
                 "08:00:00", none, "2024-01-05"⟩]
    ∧ (checkIn regOnlyDB " cs101 " "PC-07" "2024-01-05" "08:00:00").2.students
        = regOnlyDB.students := by
  have h := C3_checkin_success_creates_entry regOnlyDB " cs101 " "PC-07" "2024-01-05"
    "08:00:00" ashaStudent (by decide) (by decide) (by decide) (by decide) (by decide)
  exact ⟨by decide, by decide, by decide, by decide, h.1, h.2.1, h.2.2.1⟩

/-- C4 counterexample: check-out does set the time-out and report the
recorded time, but its success message does not name the workstation
that was freed.  Concretely: Asha is inside on PC-07, check-out
succeeds recording 09:00:00, and the success message contains the time
but not "PC-07". -/
theorem C4_checkout_message_lacks_workstation :
    findOpenEntry openDB ashaStudent.id "2024-01-05" = some openAsha7
    ∧ openAsha7.system_no = "PC-07"
    ∧ (checkOut openDB "cs101" "2024-01-05" "09:00:00").1
        = CheckOutResult.success (goodbyeMsg "Asha Rao" "09:00:00")
    ∧ containsStr (goodbyeMsg "Asha Rao" "09:00:00") "09:00:00" = true
    ∧ containsStr (goodbyeMsg "Asha Rao" "09:00:00") "PC-07" = false := by decide

/-- C4 (amended): for every check-out call where the register number is
non-empty after normalisation, the student exists and has an open entry
today, check-out sets that entry's time-out to the current time and
returns success reporting the student's name and the recorded time (the
freed workstation id is not part of the success message); every other
entry and the students table are untouched. -/
theorem C4_checkout_sets_timeout_reports_time (db : DB) (regNoRaw today now : String)
    (st : Student) (oe : Entry)
    (hreg : normReg regNoRaw ≠ "")
    (hst : findStudentByReg db (normReg regNoRaw) = some st)
    (hoe : findOpenEntry db st.id today = some oe) :
    (checkOut db regNoRaw today now).1 = CheckOutResult.success (goodbyeMsg st.name now)
    ∧ { oe with time_out := some now } ∈ (checkOut db regNoRaw today now).2.entries
    ∧ (∀ e ∈ db.entries, e.id ≠ oe.id → e ∈ (checkOut db regNoRaw today now).2.entries)
    ∧ (checkOut db regNoRaw today now).2.students = db.students
    ∧ (checkOut db regNoRaw today now).2.entries.length = db.entries.length := by
  have hreg' : (normReg regNoRaw == "") = false := beq_eq_false_iff_ne.mpr hreg
  have heq : checkOut db regNoRaw today now
      = (CheckOutResult.success (goodbyeMsg st.name now),
         { db with entries := db.entries.map (closeIfId oe.id now) }) := by
    simp [checkOut, hreg', hst, hoe]
  rw [heq]
  obtain ⟨hm, _, _, _⟩ := findOpenEntry_some hoe
  refine ⟨rfl, ?_, ?_, rfl, by simp⟩
  · have hcl : closeIfId oe.id now oe = { oe with time_out := some now } := by
      simp [closeIfId]
    rw [← hcl]
    exact List.mem_map_of_mem _ hm
  · intro e he hne
    rw [← closeIfId_ne hne]
    exact List.mem_map_of_mem _ he

/-- Witness for the amended C4 at the same concrete state as the
counterexample. -/
theorem C4_checkout_sets_timeout_reports_time_witness :
    findStudentByReg openDB (normReg "cs101") = some ashaStudent
    ∧ findOpenEntry openDB ashaStudent.id "2024-01-05" = some openAsha7
    ∧ (checkOut openDB "cs101" "2024-01-05" "09:00:00").1
        = CheckOutResult.success (goodbyeMsg ashaStudent.name "09:00:00")
    ∧ { openAsha7 with time_out := some "09:00:00" }
        ∈ (checkOut openDB "cs101" "2024-01-05" "09:00:00").2.entries
    ∧ (checkOut openDB "cs101" "2024-01-05" "09:00:00").2.students = openDB.students := by
  have h := C4_checkout_sets_timeout_reports_time openDB "cs101" "2024-01-05" "09:00:00"
    ashaStudent openAsha7 (by decide) (by decide) (by decide)
  exact ⟨by decide, by decide, h.1, h.2.1, h.2.2.2.1⟩

/-- C5: when the (existing) student has no open entry today, check-out
fails with the no-open-entry notice and the database is entirely
unchanged. -/
theorem C5_checkout_no_open_entry_no_mutation (db : DB) (regNoRaw today now : String)
    (st : Student)
    (hreg : normReg regNoRaw ≠ "")
    (hst : findStudentByReg db (normReg regNoRaw) = some st)
    (hnone : findOpenEntry db st.id today = none) :
    (checkOut db regNoRaw today now).1 = CheckOutResult.noOpenEntry (noOpenMsg st.name)
    ∧ (checkOut db regNoRaw today now).2 = db := by
  have hreg' : (normReg regNoRaw == "") = false := beq_eq_false_iff_ne.mpr hreg
  simp [checkOut, hreg', hst, hnone]

/-- Witness for C5: Asha's only entry today is already closed, so her
check-out reports no open entry and the state is unchanged. -/
theorem C5_checkout_no_open_entry_no_mutation_witness :
    findStudentByReg mixedDB (normReg "cs101") = some ashaStudent
    ∧ findOpenEntry mixedDB ashaStudent.id "2024-01-05" = none
    ∧ (checkOut mixedDB "cs101" "2024-01-05" "09:00:00").1
        = CheckOutResult.noOpenEntry (noOpenMsg ashaStudent.name)
    ∧ (checkOut mixedDB "cs101" "2024-01-05" "09:00:00").2 = mixedDB := by
  have h := C5_checkout_no_open_entry_no_mutation mixedDB "cs101" "2024-01-05" "09:00:00"
    ashaStudent (by decide) (by decide) (by decide)
  exact ⟨by decide, by decide, h.1, h.2⟩

/-- C6: a registration whose trimmed, uppercased register number equals
the stored register number of an existing student (duplicates are thus
detected case-insensitively, all stored numbers being uppercased on
insert) fails with the duplicate notice and leaves the database — in
particular the existing student record — unchanged. -/
theorem C6_add_student_duplicate_rejected (db : DB) (nameRaw regNoRaw deptRaw : String)
    (s : Student)
    (hname : pyStrip nameRaw ≠ "")
    (hreg : normReg regNoRaw ≠ "")
    (hdept : pyStrip deptRaw ≠ "")
    (hs : s ∈ db.students) (hdup : s.reg_no = normReg regNoRaw) :
    (addStudent db nameRaw regNoRaw deptRaw).1
      = AddStudentResult.duplicateKey (normReg regNoRaw)
    ∧ (addStudent db nameRaw regNoRaw deptRaw).2 = db := by
  have hname' : (pyStrip nameRaw == "") = false := beq_eq_false_iff_ne.mpr hname
  have hreg' : (normReg regNoRaw == "") = false := beq_eq_false_iff_ne.mpr hreg
  have hdept' : (pyStrip deptRaw == "") = false := beq_eq_false_iff_ne.mpr hdept
  have hany : db.students.any (fun t => t.reg_no == normReg regNoRaw) = true := by
    rw [List.any_eq_true]
    exact ⟨s, hs, by simp [hdup]⟩
  simp [addStudent, hname', hreg', hdept', hany]

/-- Witness for C6: registering a second student under " cs101 "
(lower-case, padded) collides with the stored "CS101" and mutates
nothing. -/
theorem C6_add_student_duplicate_rejected_witness :
    ashaStudent ∈ regOnlyDB.students
    ∧ ashaStudent.reg_no = normReg " cs101 "
    ∧ (addStudent regOnlyDB "Imposter" " cs101 " "IT").1
        = AddStudentResult.duplicateKey (normReg " cs101 ")
    ∧ (addStudent regOnlyDB "Imposter" " cs101 " "IT").2 = regOnlyDB := by
  have h := C6_add_student_duplicate_rejected regOnlyDB "Imposter" " cs101 " "IT"
    ashaStudent (by decide) (by decide) (by decide) (by decide) (by decide)
  exact ⟨by decide, by decide, h.1, h.2⟩

/-- `find?` ignores a filter that can only discard non-matching
elements (used to show deleted students never affect other joins). -/
theorem find?_filter_comm {α : Type} (l : List α) (p q : α → Bool)
    (h : ∀ x ∈ l, p x = true → q x = true) :
    (l.filter q).find? p = l.find? p := by
  induction l with
  | nil => rfl
  | cons a l ih =>
    have ih' := ih (fun x hx hp => h x (List.mem_cons_of_mem a hx) hp)
    by_cases hq : q a = true
    · rw [List.filter_cons_of_pos hq]
      by_cases hp : p a = true
      · rw [List.find?_cons_of_pos _ hp, List.find?_cons_of_pos _ hp]
      · rw [List.find?_cons_of_neg _ (by simpa using hp),
          List.find?_cons_of_neg _ (by simpa using hp)]
        exact ih'
    · have hp : ¬ p a = true := fun hp => hq (h a (List.mem_cons_self a l) hp)
      rw [List.filter_cons_of_neg (by simpa using hq), List.find?_cons_of_neg _ (by simpa using hp)]
      exact ih'

/-- C7: deleting an unknown id reports not-found and changes nothing;
deleting an existing student removes exactly the entries owned by that
student and that student row, keeps every other entry and student, and
entries of other students still join to their (unchanged) owners. -/
theorem C7_delete_student_cascade_frame (db : DB) (sid : Nat) :
    ((∀ s ∈ db.students, s.id ≠ sid) →
      (deleteStudent db sid).1 = DeleteResult.notFound ∧ (deleteStudent db sid).2 = db)
    ∧ ∀ st, findStudentById db sid = some st →
        (deleteStudent db sid).1 = DeleteResult.deleted st.name
        ∧ (∀ e ∈ (deleteStudent db sid).2.entries, e ∈ db.entries ∧ e.student_id ≠ sid)
        ∧ (∀ e ∈ db.entries, e.student_id ≠ sid → e ∈ (deleteStudent db sid).2.entries)
        ∧ (∀ s ∈ (deleteStudent db sid).2.students, s ∈ db.students ∧ s.id ≠ sid)
        ∧ (∀ s ∈ db.students, s.id ≠ sid → s ∈ (deleteStudent db sid).2.students)
        ∧ (∀ e ∈ db.entries, e.student_id ≠ sid →
            joinRow (deleteStudent db sid).2 e = joinRow db e) := by
  constructor
  · intro hno
    have hnone : findStudentById db sid = none := by
      rw [findStudentById, List.find?_eq_none]
      intro x hx
      simp [hno x hx]
    simp [deleteStudent, hnone]
  · intro st hst
    have heq : deleteStudent db sid
        = (DeleteResult.deleted st.name,
           { db with entries := db.entries.filter (fun e => !(e.student_id == sid)),
                     students := db.students.filter (fun s => !(s.id == sid)) }) := by
      simp [deleteStudent, hst]
    rw [heq]
    refine ⟨rfl, ?_, ?_, ?_, ?_, ?_⟩
    · intro e he
      rw [List.mem_filter] at he
      exact ⟨he.1, by simpa using he.2⟩
    · intro e he hne
      rw [List.mem_filter]
      exact ⟨he, by simpa using hne⟩
    · intro s hs
      rw [List.mem_filter] at hs
      exact ⟨hs.1, by simpa using hs.2⟩
    · intro s hs hne
      rw [List.mem_filter]
      exact ⟨hs, by simpa using hne⟩
    · intro e he hne
      unfold joinRow findStudentById
      have hcomm := find?_filter_comm db.students (fun s => s.id == e.student_id)
        (fun s => !(s.id == sid)) ?_
      · rw [hcomm]
      · intro x hx hpx
        simp only [beq_iff_eq] at hpx
        simp [hpx, hne]

/-- Witness for C7: deleting the unknown id 99 changes nothing;
deleting Ben (id 2) removes his open entry and his row while Asha's
closed entry survives and still joins to Asha. -/
theorem C7_delete_student_cascade_frame_witness :
    ((deleteStudent mixedDB 99).1 = DeleteResult.notFound
      ∧ (deleteStudent mixedDB 99).2 = mixedDB)
    ∧ (deleteStudent mixedDB 2).1 = DeleteResult.deleted benStudent.name
    ∧ closedAsha ∈ (deleteStudent mixedDB 2).2.entries
    ∧ joinRow (deleteStudent mixedDB 2).2 closedAsha = joinRow mixedDB closedAsha
    ∧ (deleteStudent mixedDB 2).2.entries = [closedAsha]
    ∧ (deleteStudent mixedDB 2).2.students = [ashaStudent] := by
  have h1 := (C7_delete_student_cascade_frame mixedDB 99).1 (by decide)
  have h2 := (C7_delete_student_cascade_frame mixedDB 2).2 benStudent (by decide)
  refine ⟨h1, h2.1, ?_, ?_, by decide, by decide⟩
  · exact h2.2.2.1 closedAsha (by decide) (by decide)
  · exact h2.2.2.2.2.2 closedAsha (by decide) (by decide)

/-- The add-student route never touches the entries table. -/
theorem addStudent_entries (db : DB) (n r d : String) :
    (addStudent db n r d).2.entries = db.entries := by
  simp only [addStudent]
  split
  · rfl
  split
  · rfl
  · rfl

/-- Check-in only ever appends to the entries table. -/
theorem checkIn_entries_extend (db : DB) (r s t n : String) :
    ∃ tail, (checkIn db r s t n).2.entries = db.entries ++ tail := by
  simp only [checkIn]
  split
  · exact ⟨[], by simp⟩
  split
  · exact ⟨[], by simp⟩
  split
  · exact ⟨[], by simp⟩
  split
  · exact ⟨[], by simp⟩
  split
  · exact ⟨[], by simp⟩
  · exact ⟨_, rfl⟩

/-- C9: once an entry is closed (non-null time-out), no operation ever
changes it again: after any single operation on a state with distinct
entry ids, the closed entry survives verbatim unless the operation is
the cascade deletion of its owning student. -/
theorem C9_closed_entry_immutable (db : DB) (op : Op) (e : Entry)
    (hids : db.entries.Pairwise (fun a b => a.id ≠ b.id))
    (he : e ∈ db.entries) (hclosed : e.time_out ≠ none) :
    e ∈ (applyOp db op).entries ∨ ∃ sid, op = Op.del sid ∧ e.student_id = sid := by
  cases op with
  | add n r d =>
    left
    rw [applyOp, addStudent_entries]
    exact he
  | del sid =>
    by_cases hsid : e.student_id = sid
    · right; exact ⟨sid, rfl, hsid⟩
    · left
      rw [applyOp]
      simp only [deleteStudent]
      split
      · exact he
      · rw [List.mem_filter]
        exact ⟨he, by simpa using hsid⟩
  | cin r s t n =>
    left
    obtain ⟨tail, htail⟩ := checkIn_entries_extend db r s t n
    rw [applyOp, htail]
    exact List.mem_append_left _ he
  | cout r t n =>
    left
    rw [applyOp]
    simp only [checkOut]
    split
    · exact he
    split
    · exact he
    split
    · exact he
    rename_i oe hoe
    obtain ⟨hoem, _, _, hopen⟩ := findOpenEntry_some hoe
    have hneq : e ≠ oe := fun h => hclosed (h ▸ hopen)
    have hne : e.id ≠ oe.id :=
      List.Pairwise.forall (fun _ _ h => Ne.symm h) hids he hoem hneq
    rw [← closeIfId_ne hne]
    exact List.mem_map_of_mem _ he

/-- Witness for C9: on a state with Ben open on PC-07 and Asha's closed
entry, Ben's check-out leaves the closed entry untouched. -/
theorem C9_closed_entry_immutable_witness :
    mixedDB.entries.Pairwise (fun a b => a.id ≠ b.id)
    ∧ closedAsha ∈ mixedDB.entries
    ∧ closedAsha.time_out ≠ none
    ∧ (closedAsha ∈ (applyOp mixedDB (Op.cout "cs102" "2024-01-05" "10:00:00")).entries
       ∨ ∃ sid, Op.cout "cs102" "2024-01-05" "10:00:00" = Op.del sid
           ∧ closedAsha.student_id = sid) := by
  have hp : mixedDB.entries.Pairwise (fun a b => a.id ≠ b.id) := by decide
  exact ⟨hp, by decide, by decide,
    C9_closed_entry_immutable mixedDB (Op.cout "cs102" "2024-01-05" "10:00:00") closedAsha
      hp (by decide) (by decide)⟩

/-- C10: check-in either succeeds or leaves the whole database
unchanged: each of the five failure branches (empty register number,
empty system number, unknown register number, workstation occupied,
student already inside) performs no mutation. -/
theorem C10_checkin_failure_no_mutation (db : DB) (regNoRaw sysNoRaw today now : String) :
    (checkIn db regNoRaw sysNoRaw today now).2 = db
    ∨ ∃ m, (checkIn db regNoRaw sysNoRaw today now).1 = CheckInResult.success m := by
  simp only [checkIn]
  split
  · left; rfl
  split
  · left; rfl
  split
  · left; rfl
  split
  · left; rfl
  split
  · left; rfl
  · right; exact ⟨_, rfl⟩

/-- A joined row keeps the id of its entry. -/
theorem joinRow_id {db : DB} {e : Entry} {r : Row} (h : joinRow db e = some r) :
    r.id = e.id := by
  unfold joinRow at h
  cases hf : findStudentById db e.student_id with
  | none => rw [hf] at h; cases h
  | some s =>
    rw [hf] at h
    simp only [Option.map_some'] at h
    cases h
    rfl

/-- A joined row keeps the date of its entry. -/
theorem joinRow_date {db : DB} {e : Entry} {r : Row} (h : joinRow db e = some r) :
    r.date = e.date := by
  unfold joinRow at h
  cases hf : findStudentById db e.student_id with
  | none => rw [hf] at h; cases h
  | some s =>
    rw [hf] at h
    simp only [Option.map_some'] at h
    cases h
    rfl

/-- C8: with a date filter the listing returns exactly the joined rows
of that date (a permutation of the date-filtered join, so no row cap),
ordered newest-id-first; without a filter it returns the first 200 rows
of the full newest-id-first join; the export uses the same selection and
ordering but without the 200-row cap, preceded by the fixed header row
Name, Reg No, Department, Lab, System No, Time In, Time Out, Date. -/
theorem C8_listing_and_export (db : DB) (fd : String) :
    (fd ≠ "" →
      (∀ r ∈ listEntries db fd, r.date = fd)
      ∧ List.Perm (listEntries db fd)
          ((db.entries.filter (fun e => e.date == fd)).filterMap (joinRow db))
      ∧ (listEntries db fd).Pairwise rowGe
      ∧ exportEntries db fd = csvHeader :: (listEntries db fd).map rowToCsv)
    ∧ (listEntries db "").Pairwise rowGe
    ∧ (listEntries db "").length = min 200 (db.entries.filterMap (joinRow db)).length
    ∧ (exportEntries db "").length = (db.entries.filterMap (joinRow db)).length + 1
    ∧ (exportEntries db "").head? = some csvHeader
    ∧ (listEntries db "").map rowToCsv <+: (exportEntries db "").tail := by
  have hjoin : ∀ a b : Entry, entryGe a b →
      ∀ x ∈ joinRow db a, ∀ y ∈ joinRow db b, rowGe x y := by
    intro a b hge x hx y hy
    rw [Option.mem_def] at hx hy
    unfold rowGe
    rw [joinRow_id hx, joinRow_id hy]
    exact hge
  have hlist0 : listEntries db ""
      = ((db.entries.insertionSort entryGe).filterMap (joinRow db)).take 200 := by
    simp [listEntries]
  have hexp0 : exportEntries db ""
      = csvHeader :: ((db.entries.insertionSort entryGe).filterMap (joinRow db)).map rowToCsv := by
    simp [exportEntries]
  have hlen0 : ((db.entries.insertionSort entryGe).filterMap (joinRow db)).length
      = (db.entries.filterMap (joinRow db)).length :=
    ((List.perm_insertionSort entryGe db.entries).filterMap (joinRow db)).length_eq
  refine ⟨?_, ?_, ?_, ?_, ?_, ?_⟩
  · intro hfd
    have hfd' : (fd == "") = false := beq_eq_false_iff_ne.mpr hfd
    have hlist : listEntries db fd
        = ((db.entries.filter (fun e => e.date == fd)).insertionSort
            entryGe).filterMap (joinRow db) := by
      simp [listEntries, hfd']
    have hexp : exportEntries db fd
        = csvHeader :: (((db.entries.filter (fun e => e.date == fd)).insertionSort
            entryGe).filterMap (joinRow db)).map rowToCsv := by
      simp [exportEntries, hfd']
    refine ⟨?_, ?_, ?_, ?_⟩
    · intro r hr
      rw [hlist] at hr
      obtain ⟨e, he, hje⟩ := List.mem_filterMap.mp hr
      have he' : e ∈ db.entries.filter (fun e => e.date == fd) :=
        (List.perm_insertionSort entryGe _).mem_iff.mp he
      have hdate : e.date = fd := by simpa using (List.mem_filter.mp he').2
      rw [joinRow_date hje, hdate]
    · rw [hlist]
      exact (List.perm_insertionSort entryGe _).filterMap (joinRow db)
    · rw [hlist]
      exact List.Pairwise.filterMap (joinRow db) hjoin
        (List.sorted_insertionSort entryGe _)
    · rw [hexp, hlist]
  · rw [hlist0]
    exact (List.Pairwise.filterMap (joinRow db) hjoin
      (List.sorted_insertionSort entryGe _)).sublist (List.take_sublist 200 _)
  · rw [hlist0, List.length_take, hlen0]
  · rw [hexp0, List.length_cons, List.length_map, hlen0]
  · rw [hexp0]
    rfl
  · rw [hexp0, hlist0]
    exact ⟨(((db.entries.insertionSort entryGe).filterMap (joinRow db)).drop 200).map rowToCsv,
      by rw [← List.map_append, List.take_append_drop, List.tail_cons]⟩

/-- Witness for C8 on the two-entry state: the filtered listing is the
two joined rows newest-id-first, the export is header plus those rows,
and the unfiltered listing obeys the 200-row cap formula. -/
theorem C8_listing_and_export_witness :
    (∀ r ∈ listEntries mixedDB "2024-01-05", r.date = "2024-01-05")
    ∧ (listEntries mixedDB "2024-01-05").Pairwise rowGe
    ∧ exportEntries mixedDB "2024-01-05"
        = csvHeader :: (listEntries mixedDB "2024-01-05").map rowToCsv
    ∧ listEntries mixedDB "2024-01-05"
        = [⟨3, "Asha Rao", "CS101", "CSE", "Computer Lab", "PC-09", "07:00:00",
            some "07:30:00", "2024-01-05"⟩,
           ⟨1, "Ben Lee", "CS102", "CSE", "Computer Lab", "PC-07", "08:00:00",
            none, "2024-01-05"⟩]
    ∧ (listEntries mixedDB "").length
        = min 200 (mixedDB.entries.filterMap (joinRow mixedDB)).length := by
  have h := C8_listing_and_export mixedDB "2024-01-05"
  have h1 := h.1 (by decide)
  exact ⟨h1.1, h1.2.2.1, h1.2.2.2, by decide, (C8_listing_and_export mixedDB "").2.2.1⟩
